import Mathlib

/-!
Verification of the auto-dealership test-drive assistant.

Shallow embedding of the booking/availability core of the repository:
  - src/agents.py   (KnowledgeBase, DealershipTools, ConversationAgent)
  - src/api.py      (create_booking endpoint, chat endpoint)
  - src/orchestrator.py (DealershipAssistant.process_text)

Python `datetime.date` values are modelled as day ordinals (`Nat`), with
`datetime.now().date()` passed in explicitly as a `today : Nat` parameter and
`int(datetime.now().timestamp())` passed as a `nowTs : Nat` parameter (whole
seconds, as truncated by `int(...)` in the source).  Python functions that
return result strings with several shapes are modelled as inductive outcome
types whose constructors correspond one-to-one to the `return` statements of
the source.
-/

namespace AutoDealership

/-! ## Calendar arithmetic

Models comparison and subtraction of `datetime.date` values used by
`KnowledgeBase.check_time_availability` (src/agents.py lines 84-98).
A date is its day ordinal: the number of days since 0000-03-01 in the
proleptic Gregorian calendar (days-from-civil). -/

/-- Numeric value of a decimal digit character. -/
def digitVal (c : Char) : Nat := c.toNat - 48

/-- Gregorian leap-year rule, as used by `datetime.date`. -/
def isLeapYear (y : Nat) : Bool := (y % 4 == 0 && y % 100 != 0) || (y % 400 == 0)

/-- Number of days in month `m` of year `y` (Gregorian). -/
def daysInMonth (y m : Nat) : Nat :=
  if m = 2 then (if isLeapYear y then 29 else 28)
  else if m = 4 ∨ m = 6 ∨ m = 9 ∨ m = 11 then 30
  else 31

/-- Day ordinal of the Gregorian date `y-m-d` (days-from-civil algorithm,
shifted so the result is a `Nat`).  Differences of ordinals are exactly the
`.days` of the corresponding `datetime.date` subtraction. -/
def daysFromCivil (y m d : Nat) : Nat :=
  let yy := if m ≤ 2 then y - 1 else y
  let era := yy / 400
  let yoe := yy % 400
  let mp := (m + 9) % 12
  let doy := (153 * mp + 2) / 5 + (d - 1)
  let doe := yoe * 365 + yoe / 4 - yoe / 100 + doy
  era * 146097 + doe

/-- Models `datetime.fromisoformat(date_str).date()` on the canonical
`YYYY-MM-DD` date form: returns the day ordinal of a well-formed in-range
date and `none` where the source raises `ValueError` (wrong shape, month not
in 1..12, day not valid for the month, year 0000). -/
def parseDate (s : String) : Option Nat :=
  match s.toList with
  | [y1, y2, y3, y4, h1, m1, m2, h2, d1, d2] =>
    if y1.isDigit && y2.isDigit && y3.isDigit && y4.isDigit &&
       (h1 == '-') && m1.isDigit && m2.isDigit && (h2 == '-') &&
       d1.isDigit && d2.isDigit then
      let y := digitVal y1 * 1000 + digitVal y2 * 100 + digitVal y3 * 10 + digitVal y4
      let m := digitVal m1 * 10 + digitVal m2
      let d := digitVal d1 * 10 + digitVal d2
      if 1 ≤ y ∧ 1 ≤ m ∧ m ≤ 12 ∧ 1 ≤ d ∧ d ≤ daysInMonth y m then
        some (daysFromCivil y m d)
      else none
    else none
  | _ => none

/-! ## Data model (src/agents.py) -/

/-- One inventory entry of the catalog JSON (the fields the core reads).
`test_drive_duration_minutes` is optional: the source reads it with
`car.get("test_drive_duration_minutes", 60)`. -/
structure Car where
  id : String
  brand : String
  model : String
  year : Nat
  type : String
  price_range : String
  features : List String
  availability : Bool
  test_drive_duration_minutes : Option Nat
deriving DecidableEq, Repr

/-- `TestDriveBooking` (src/agents.py lines 22-34).  `booking_timestamp`
(source: `datetime.now().isoformat()`) is modelled as the creation tick. -/
structure TestDriveBooking where
  booking_id : String
  customer_name : String
  customer_phone : String
  customer_email : Option String
  car_model : String
  car_id : String
  preferred_date : String
  preferred_time : String
  test_drive_duration : Nat
  booking_status : String
  booking_timestamp : Nat
deriving DecidableEq, Repr

/-- `KnowledgeBase` state (src/agents.py lines 37-43): the loaded inventory
plus the in-memory booking ledger `self.bookings`. -/
structure KnowledgeBase where
  inventory : List Car
  bookings : List TestDriveBooking
deriving DecidableEq, Repr

/-! ## KnowledgeBase operations (src/agents.py) -/

/-- Python string containment `needle in hay` (the `in` operator of
`car_type.lower() in car.get("type", "").lower()`), on lists of
characters: `needle` occurs contiguously somewhere in the list. -/
def subListOf (needle : List Char) : List Char → Bool
  | [] => needle.isEmpty
  | c :: rest => needle.isPrefixOf (c :: rest) || subListOf needle rest

/-- Loop body of `search_cars_by_type` (src/agents.py lines 53-59): the
Python `for` loop that appends every car whose lower-cased `type` contains
the lower-cased query as a substring. -/
def searchLoop (car_type : String) : List Car → List Car
  | [] => []
  | car :: rest =>
    if subListOf ((car_type.map Char.toLower).toList) ((car.type.map Char.toLower).toList) then
      car :: searchLoop car_type rest
    else searchLoop car_type rest

/-- `KnowledgeBase.search_cars_by_type` (src/agents.py lines 53-59). -/
def KnowledgeBase.search_cars_by_type (kb : KnowledgeBase) (car_type : String) : List Car :=
  searchLoop car_type kb.inventory

/-- Loop body of `get_car_details` (src/agents.py lines 69-74): return the
first car whose `id` equals `car_id`, else `None`. -/
def detailsLoop (car_id : String) : List Car → Option Car
  | [] => none
  | car :: rest => if car.id = car_id then some car else detailsLoop car_id rest

/-- `KnowledgeBase.get_car_details` (src/agents.py lines 69-74). -/
def KnowledgeBase.get_car_details (kb : KnowledgeBase) (car_id : String) : Option Car :=
  detailsLoop car_id kb.inventory

/-- `KnowledgeBase.get_available_cars` (src/agents.py lines 76-78). -/
def KnowledgeBase.get_available_cars (kb : KnowledgeBase) : List Car :=
  kb.inventory.filter (fun car => car.availability)

/-- `KnowledgeBase.check_time_availability` (src/agents.py lines 84-98).
`self` carries the booking ledger, `today` models `datetime.now().date()`.
The source parses `date_str`, returns `False` on a parse `ValueError`,
`False` for a date before today, `False` for a date more than 30 days ahead
and `True` otherwise; it never consults `self.bookings` and ignores
`time_str`. -/
def KnowledgeBase.check_time_availability (kb : KnowledgeBase) (today : Nat)
    (date_str time_str : String) : Bool :=
  match parseDate date_str with
  | none => false
  | some requested_date =>
    if requested_date < today then false
    else if requested_date - today > 30 then false
    else true

/-- `KnowledgeBase.book_test_drive` (src/agents.py lines 100-103):
unconditionally appends the booking and returns `True`. -/
def KnowledgeBase.book_test_drive (kb : KnowledgeBase) (booking : TestDriveBooking) :
    KnowledgeBase × Bool :=
  ({ kb with bookings := kb.bookings ++ [booking] }, true)

/-! ## DealershipTools (src/agents.py) -/

/-- Outcome of the `book_test_drive` tool (src/agents.py lines 184-216);
constructors correspond to its four `return` statements in source order. -/
inductive BookResult where
  /-- "Cannot book: Car with ID ... not found" -/
  | carNotFound (car_id : String)
  /-- "Cannot book: ... at ... is not available" -/
  | notAvailable (date time : String)
  /-- the success confirmation text, carrying the stored booking -/
  | booked (b : TestDriveBooking)
  /-- "Failed to book test drive. Please try again." -/
  | bookRejected
deriving DecidableEq, Repr

/-- `true` exactly on the success outcome. -/
def BookResult.isBooked : BookResult → Bool
  | .booked _ => true
  | _ => false

/-- Booking id carried by a success outcome. -/
def BookResult.bookingId : BookResult → Option String
  | .booked b => some b.booking_id
  | _ => none

/-- `DealershipTools.book_test_drive` (src/agents.py lines 184-216):
look the car up, check the date window, then build a `TestDriveBooking`
with id `f"TD-{int(datetime.now().timestamp())}"` and append it through
`KnowledgeBase.book_test_drive`.  `nowTs` models the whole-second timestamp
taken at the call. -/
def DealershipTools.book_test_drive (kb : KnowledgeBase) (today nowTs : Nat)
    (customer_name customer_phone car_id preferred_date preferred_time : String) :
    KnowledgeBase × BookResult :=
  match KnowledgeBase.get_car_details kb car_id with
  | none => (kb, .carNotFound car_id)
  | some car =>
    if KnowledgeBase.check_time_availability kb today preferred_date preferred_time = false then
      (kb, .notAvailable preferred_date preferred_time)
    else
      let booking : TestDriveBooking :=
        { booking_id := "TD-" ++ toString nowTs
          customer_name := customer_name
          customer_phone := customer_phone
          customer_email := none
          car_model := car.brand ++ " " ++ car.model
          car_id := car_id
          preferred_date := preferred_date
          preferred_time := preferred_time
          test_drive_duration := car.test_drive_duration_minutes.getD 60
          booking_status := "confirmed"
          booking_timestamp := nowTs }
      let r := KnowledgeBase.book_test_drive kb booking
      if r.2 then (r.1, .booked booking) else (r.1, .bookRejected)

/-- The negative reply of the `check_availability` tool: the ordinary
"slot is not available" result string (src/agents.py line 169). -/
def negAvailabilityMsg (date time : String) : String :=
  "Sorry, " ++ date ++ " at " ++ time ++ " is not available. Please choose another time."

/-- `DealershipTools.check_availability` (src/agents.py lines 163-169). -/
def DealershipTools.check_availability (kb : KnowledgeBase) (today : Nat)
    (date time : String) : String :=
  if KnowledgeBase.check_time_availability kb today date time then
    "Great! " ++ date ++ " at " ++ time ++ " is available for booking."
  else
    negAvailabilityMsg date time

/-! ## API booking endpoint (src/api.py) -/

/-- `TestDriveBookingRequest` (src/api.py lines 101-108). -/
structure TestDriveBookingRequest where
  customer_name : String
  customer_phone : String
  customer_email : Option String
  car_id : String
  preferred_date : String
  preferred_time : String
deriving DecidableEq, Repr

/-- Outcome of `create_booking` (src/api.py lines 315-366); constructors
correspond to its exits in source order. -/
inductive ApiBookingResult where
  /-- HTTPException 404 "Car not found" -/
  | carNotFound
  /-- HTTPException 400 "Requested time is not available" -/
  | timeNotAvailable
  /-- HTTPException 400 "Failed to create booking" -/
  | createFailed
  /-- the 200 `TestDriveBookingResponse`, carrying the stored booking -/
  | created (b : TestDriveBooking)
deriving DecidableEq, Repr

/-- `true` exactly on the success outcome. -/
def ApiBookingResult.isCreated : ApiBookingResult → Bool
  | .created _ => true
  | _ => false

/-- Booking id carried by a success outcome. -/
def ApiBookingResult.bookingId : ApiBookingResult → Option String
  | .created b => some b.booking_id
  | _ => none

/-- `create_booking` (src/api.py lines 315-366): validate that the car
exists, check `check_time_availability`, build the booking with id
`f"TD-{int(datetime.now().timestamp())}"` and append it through
`KnowledgeBase.book_test_drive`. -/
def create_booking (kb : KnowledgeBase) (today nowTs : Nat)
    (request : TestDriveBookingRequest) : KnowledgeBase × ApiBookingResult :=
  match KnowledgeBase.get_car_details kb request.car_id with
  | none => (kb, .carNotFound)
  | some car =>
    if KnowledgeBase.check_time_availability kb today
        request.preferred_date request.preferred_time = false then
      (kb, .timeNotAvailable)
    else
      let booking : TestDriveBooking :=
        { booking_id := "TD-" ++ toString nowTs
          customer_name := request.customer_name
          customer_phone := request.customer_phone
          customer_email := request.customer_email
          car_model := car.brand ++ " " ++ car.model
          car_id := request.car_id
          preferred_date := request.preferred_date
          preferred_time := request.preferred_time
          test_drive_duration := car.test_drive_duration_minutes.getD 60
          booking_status := "confirmed"
          booking_timestamp := nowTs }
      let r := KnowledgeBase.book_test_drive kb booking
      if r.2 = false then (r.1, .createFailed) else (r.1, .created booking)

/-- A sequence of `create_booking` calls with the same request, one per tick
in `ticks`, each seeing the state left by the previous one.  This is the
fully serialized schedule of N reservation attempts — the most favourable
schedule for the one-winner property. -/
def reserveSeq (today : Nat) (request : TestDriveBookingRequest) :
    List Nat → KnowledgeBase → KnowledgeBase × List ApiBookingResult
  | [], kb => (kb, [])
  | t :: ts, kb =>
    let r := create_booking kb today t request
    let rest := reserveSeq today request ts r.1
    (rest.1, r.2 :: rest.2)

/-! ## Chat endpoint and per-session state (src/api.py, src/agents.py)

The server holds ONE `DealershipAssistant` (src/api.py line 40) whose single
`ConversationAgent` owns a single `ConversationBufferMemory`
(src/agents.py lines 266-269).  The `chat` endpoint (src/api.py lines
154-172) receives an optional `session_id` but only echoes it in the
response; every message is processed against the one shared memory. -/

/-- The process-wide server state: the single conversation buffer of the one
`ConversationAgent`, as a list of (role, text) turns. -/
structure ServerState where
  transcript : List (String × String)
deriving DecidableEq, Repr

/-- The transcript state that serves a request carrying `session_id`: the
source keeps no per-session store, so every identifier resolves to the one
global buffer. -/
def sessionView (st : ServerState) (session_id : String) : List (String × String) :=
  st.transcript

/-- `chat` endpoint (src/api.py lines 154-172) on the successful path,
composed with `process_text` / `process_input` / `AgentExecutor.invoke`:
the decision oracle (the LLM agent) produces a reply from the shared
transcript and the message; `ConversationBufferMemory` appends the human
turn and the ai turn; the response echoes `session_id` unchanged. -/
def chat (oracle : List (String × String) → String → String) (st : ServerState)
    (session_id : Option String) (message : String) :
    ServerState × (String × Option String) :=
  let reply := oracle st.transcript message
  ({ transcript := st.transcript ++ [("human", message), ("ai", reply)] },
   (reply, session_id))

/-! ## Dispatch boundary (src/agents.py, src/orchestrator.py) -/

/-- `ConversationAgent.process_input` (src/agents.py lines 310-316).
`invoke` models `self.agent_executor.invoke({"input": ...})` projected to
its `"output"` key: it may raise (`Except.error` carrying `str(e)`) or
return a response dict whose `"output"` key may be absent.  The `try` block
wraps both the call and the `.get`; the `except Exception` arm returns the
apology string. -/
def process_input (invoke : String → Except String (Option String))
    (user_input : String) : Except String String :=
  tryCatch
    (do
      let response ← invoke user_input
      pure (response.getD "I didn\x27t understand that. Can you please rephrase?"))
    (fun e => pure ("Sorry, I encountered an error: " ++ e))

/-- `DealershipAssistant.process_text` (src/orchestrator.py lines 76-86):
pure delegation to `ConversationAgent.process_input`. -/
def process_text (invoke : String → Except String (Option String))
    (user_input : String) : Except String String :=
  process_input invoke user_input

/-! ## Concrete fixtures

A one-vehicle catalog in the shape of `data/car_inventory.json` (the sedan
used by the repository test suite), with "today" fixed at 2024-01-15. -/

/-- The `sedan_001` catalog entry used by the repository tests. -/
def sedanCar : Car :=
  { id := "sedan_001", brand := "Toyota", model := "Elegance", year := 2024,
    type := "sedan", price_range := "25,000 - 30,000",
    features := ["Sunroof", "Leather seats"], availability := true,
    test_drive_duration_minutes := some 45 }

/-- A freshly loaded knowledge base: one sedan, empty booking ledger. -/
def kb0 : KnowledgeBase := { inventory := [sedanCar], bookings := [] }

/-- A fixed "today": 2024-01-15, so 2024-01-20 lies inside the 30-day
window. -/
def today0 : Nat := daysFromCivil 2024 1 15

/-! ## Support lemmas -/

/-- `subListOf` decides contiguous-sublist occurrence: it agrees with
`List.IsInfix`. -/
theorem subListOf_iff_occurs (n : List Char) (h : List Char) :
    subListOf n h = true ↔ n <:+: h := by
  induction h with
  | nil =>
    simp [subListOf, List.isEmpty_iff]
  | cons c rest ih =>
    simp [subListOf, List.infix_cons_iff, List.isPrefixOf_iff_prefix, ih]

/-- Boolean form of `subListOf_iff_occurs`. -/
theorem subListOf_eq_decide (n : List Char) (h : List Char) :
    subListOf n h = decide (n <:+: h) := by
  by_cases hc : n <:+: h
  · rw [(subListOf_iff_occurs n h).mpr hc, decide_eq_true hc]
  · have hb : ¬ subListOf n h = true :=
      fun hh => hc ((subListOf_iff_occurs n h).mp hh)
    rw [Bool.not_eq_true] at hb
    rw [hb, decide_eq_false hc]

/-- The search loop computes the catalog-order filter by the
case-insensitive substring predicate. -/
theorem searchLoop_eq_filter (q : String) (l : List Car) :
    searchLoop q l =
      l.filter (fun car =>
        decide ((q.map Char.toLower).toList <:+: (car.type.map Char.toLower).toList)) := by
  induction l with
  | nil => rfl
  | cons car rest ih =>
    rw [searchLoop, subListOf_eq_decide, List.filter_cons]
    by_cases hc : (q.map Char.toLower).toList <:+: (car.type.map Char.toLower).toList
    · simp [hc, ih]
    · simp [hc, ih]

/-- The lookup loop finds `v` itself when ids are unique. -/
theorem detailsLoop_eq_some (l : List Car) (v : Car)
    (hnodup : (l.map Car.id).Nodup) (hv : v ∈ l) :
    detailsLoop v.id l = some v := by
  induction l with
  | nil => simp at hv
  | cons car rest ih =>
    rw [List.map_cons, List.nodup_cons] at hnodup
    rcases List.mem_cons.mp hv with hveq | hvrest
    · subst hveq
      simp [detailsLoop]
    · have hne : ¬ car.id = v.id := by
        intro he
        exact hnodup.1 (he ▸ List.mem_map_of_mem Car.id hvrest)
      rw [detailsLoop, if_neg hne]
      exact ih hnodup.2 hvrest

/-! ## Claim theorems -/

/-- First booking of the slot (`sedan_001`, 2024-01-20, 10:00) at tick 100. -/
def c1Step1 : KnowledgeBase × BookResult :=
  DealershipTools.book_test_drive kb0 today0 100
    "Alice" "555-0100" "sedan_001" "2024-01-20" "10:00"

/-- Second booking call for the identical slot, against the ledger that
already stores the first confirmed booking. -/
def c1Step2 : KnowledgeBase × BookResult :=
  DealershipTools.book_test_drive c1Step1.1 today0 101
    "Bob" "555-0101" "sedan_001" "2024-01-20" "10:00"

/-- Claim C1: the spec says a second `bookTestDrive` call for the same
(vehicle, date, time) as a stored confirmed booking fails with `SlotTaken`
and adds nothing.  In the code the second identical call succeeds as well:
both calls return the booked outcome and the ledger ends with two confirmed
bookings for the very same slot — `book_test_drive` never consults
`self.bookings`, and no `SlotTaken` outcome exists in the source. -/
theorem c1_second_booking_same_slot_succeeds :
    c1Step1.2.isBooked = true ∧
    c1Step2.2.isBooked = true ∧
    c1Step2.1.bookings.length = 2 ∧
    (c1Step2.1.bookings.all fun b =>
      b.car_id == "sedan_001" && b.preferred_date == "2024-01-20" &&
      b.preferred_time == "10:00" && b.booking_status == "confirmed") = true := by
  decide

/-- The identical reservation request used for all N calls of claim C2. -/
def c2Request : TestDriveBookingRequest :=
  { customer_name := "Alice", customer_phone := "555-0100", customer_email := none,
    car_id := "sedan_001", preferred_date := "2024-01-20", preferred_time := "10:00" }

/-- Three fully serialized `create_booking` calls for the identical slot. -/
def c2Run : KnowledgeBase × List ApiBookingResult :=
  reserveSeq today0 c2Request [100, 101, 102] kb0

/-- Claim C2: the spec requires that N reserve calls for the identical slot
yield exactly one success and N−1 `SlotTaken` failures.  Even under the most
favourable schedule — the three calls fully serialized, each seeing the
ledger the previous call wrote — every call succeeds: 3 successes, 0
failures, 3 stored bookings of the same slot.  The source has no `SlotTaken`
outcome and no critical section guarding a check-then-write (the check,
`check_time_availability`, reads no booking state at all). -/
theorem c2_sequential_reservations_all_succeed :
    (c2Run.2.countP fun r => r.isCreated) = 3 ∧
    c2Run.2.length = 3 ∧
    c2Run.1.bookings.length = 3 := by
  decide

/-- First reservation of claim C3, at tick 500. -/
def c3Run1 : KnowledgeBase × ApiBookingResult :=
  create_booking kb0 today0 500
    { customer_name := "Alice", customer_phone := "555-0100", customer_email := none,
      car_id := "sedan_001", preferred_date := "2024-01-20", preferred_time := "10:00" }

/-- Second reservation of claim C3, for a different slot, in the same
whole-second tick 500. -/
def c3Run2 : KnowledgeBase × ApiBookingResult :=
  create_booking c3Run1.1 today0 500
    { customer_name := "Bob", customer_phone := "555-0101", customer_email := none,
      car_id := "sedan_001", preferred_date := "2024-01-21", preferred_time := "11:00" }

/-- Claim C3: the spec says booking identifiers are unique across the
ledger's lifetime even for two reservations in the same timestamp tick.  The
source generates `f"TD-{int(datetime.now().timestamp())}"` — whole seconds,
no uniqueness fallback — so two successful reservations inside one second
both get id `TD-500`: the ledger holds two distinct bookings whose ids
collide. -/
theorem c3_same_tick_duplicate_booking_ids :
    c3Run1.2.bookingId = some "TD-500" ∧
    c3Run2.2.bookingId = some "TD-500" ∧
    c3Run2.1.bookings.length = 2 ∧
    ¬ (c3Run2.1.bookings.map fun b => b.booking_id).Nodup := by
  decide

/-- Claim C4, counterexample: the claim says a malformed date makes
`checkAvailability` fail with an `InvalidInput` error as opposed to an
ordinary negative availability result.  On the concrete malformed input
"not-a-date" the tool returns exactly the ordinary negative availability
message — the same reply shape an in-range-but-unavailable date ("2020-01-01",
in the past) gets — because `check_time_availability` catches the
`ValueError` and returns `False`; no `InvalidInput` outcome exists. -/
theorem c4_invalid_date_ordinary_negative_result :
    parseDate "not-a-date" = none ∧
    DealershipTools.check_availability kb0 today0 "not-a-date" "10:00" =
      negAvailabilityMsg "not-a-date" "10:00" ∧
    DealershipTools.check_availability kb0 today0 "2020-01-01" "10:00" =
      negAvailabilityMsg "2020-01-01" "10:00" :=
  ⟨rfl, rfl, rfl⟩

/-- Claim C4, amended: for every input whose date string fails to parse,
`check_availability` returns the ordinary negative availability message
("Sorry, ... is not available. Please choose another time."), treating a
malformed date exactly like an unavailable slot; it raises no distinct
`InvalidInput` error. -/
theorem c4_invalid_date_amended (kb : KnowledgeBase) (today : Nat)
    (date time : String) (hbad : parseDate date = none) :
    DealershipTools.check_availability kb today date time =
      negAvailabilityMsg date time := by
  unfold DealershipTools.check_availability KnowledgeBase.check_time_availability
  rw [hbad]
  rfl

/-- Claim C4, witness: the amended theorem applied at the malformed date
string "banana-time". -/
theorem c4_invalid_date_amended_witness :
    parseDate "banana-time" = none ∧
    DealershipTools.check_availability kb0 5 "banana-time" "09:00" =
      negAvailabilityMsg "banana-time" "09:00" :=
  ⟨by decide, c4_invalid_date_amended kb0 5 "banana-time" "09:00" (by decide)⟩

/-- Claim C5: for every ledger state `kb` and every parsed request date `d`,
`check_time_availability` (the `isFree` of the spec) returns `false` when
the date is before today, `false` when it is more than 30 days after today,
and `true` anywhere inside the window — the window verdict is independent of
the bookings stored in `kb`. -/
theorem c5_isFree_window (kb : KnowledgeBase) (today d : Nat)
    (date_str time_str : String) (hparse : parseDate date_str = some d) :
    (d < today → KnowledgeBase.check_time_availability kb today date_str time_str = false) ∧
    (today + 30 < d → KnowledgeBase.check_time_availability kb today date_str time_str = false) ∧
    (today ≤ d → d ≤ today + 30 →
      KnowledgeBase.check_time_availability kb today date_str time_str = true) := by
  unfold KnowledgeBase.check_time_availability
  rw [hparse]
  refine ⟨fun h1 => ?_, fun h2 => ?_, fun h3 h4 => ?_⟩
  · show (if d < today then false else if d - today > 30 then false else true) = false
    rw [if_pos h1]
  · show (if d < today then false else if d - today > 30 then false else true) = false
    rw [if_neg (by omega : ¬ d < today), if_pos (by omega : d - today > 30)]
  · show (if d < today then false else if d - today > 30 then false else true) = true
    rw [if_neg (by omega : ¬ d < today), if_neg (by omega : ¬ d - today > 30)]

/-- Claim C5, witness: with today = 2024-01-15 and request date 2024-01-20
(inside the window) the check returns `true` on the concrete ledger. -/
theorem c5_isFree_window_witness :
    parseDate "2024-01-20" = some (daysFromCivil 2024 1 20) ∧
    daysFromCivil 2024 1 15 ≤ daysFromCivil 2024 1 20 ∧
    daysFromCivil 2024 1 20 ≤ daysFromCivil 2024 1 15 + 30 ∧
    KnowledgeBase.check_time_availability kb0 (daysFromCivil 2024 1 15)
      "2024-01-20" "10:00" = true :=
  ⟨by decide, by decide, by decide,
   (c5_isFree_window kb0 (daysFromCivil 2024 1 15) (daysFromCivil 2024 1 20)
      "2024-01-20" "10:00" (by decide)).2.2 (by decide) (by decide)⟩

/-- A scripted decision oracle (a fixed greeting), standing in for the LLM. -/
def c6Oracle : List (String × String) → String → String :=
  fun _ _ => "Hello! How can I help?"

/-- The server state at startup: empty conversation buffer. -/
def c6St0 : ServerState := { transcript := [] }

/-- Claim C6, counterexample: the claim says messages processed under one
session identifier leave the transcript observed under a different
identifier unchanged.  Processing "hi" under identifier "A" changes the
transcript that serves identifier "B", because the server keeps one global
`ConversationBufferMemory` and ignores `session_id`. -/
theorem c6_session_interference_counterexample :
    ¬ sessionView (chat c6Oracle c6St0 (some "A") "hi").1 "B" =
        sessionView c6St0 "B" := by
  decide

/-- Claim C6, amended: the chat endpoint accepts a session identifier but
ignores it for state: processing a message produces the identical new server
state and the identical reply whatever identifier it carries, and appends
the (human, ai) turn pair to the single shared transcript through which
every identifier's requests are served. -/
theorem c6_shared_transcript_amended
    (oracle : List (String × String) → String → String) (st : ServerState)
    (sid1 sid2 : Option String) (message : String) :
    (chat oracle st sid1 message).1 = (chat oracle st sid2 message).1 ∧
    (chat oracle st sid1 message).2.1 = (chat oracle st sid2 message).2.1 ∧
    (∀ sid : String, sessionView (chat oracle st sid1 message).1 sid =
      st.transcript ++ [("human", message), ("ai", oracle st.transcript message)]) :=
  ⟨rfl, rfl, fun _ => rfl⟩

/-- Claim C7: `search_cars_by_type` returns exactly the catalog-order filter
of the inventory by "the lower-cased query occurs as a contiguous substring
of the lower-cased type"; in particular a query matching no vehicle yields
`[]`, and the function is total (never an error). -/
theorem c7_search_filter_characterization (kb : KnowledgeBase) (car_type : String) :
    KnowledgeBase.search_cars_by_type kb car_type =
      kb.inventory.filter (fun car =>
        decide ((car_type.map Char.toLower).toList <:+:
          (car.type.map Char.toLower).toList)) :=
  searchLoop_eq_filter car_type kb.inventory

/-- Claim C8: round-trip — when catalog ids are unique, looking any stored
vehicle up by its own id returns that vehicle itself. -/
theorem c8_byId_roundtrip (kb : KnowledgeBase) (v : Car)
    (hnodup : (kb.inventory.map Car.id).Nodup) (hv : v ∈ kb.inventory) :
    KnowledgeBase.get_car_details kb v.id = some v :=
  detailsLoop_eq_some kb.inventory v hnodup hv

/-- Claim C8, witness: the round-trip theorem applied to the concrete
one-sedan catalog. -/
theorem c8_byId_roundtrip_witness :
    (kb0.inventory.map Car.id).Nodup ∧ sedanCar ∈ kb0.inventory ∧
    KnowledgeBase.get_car_details kb0 sedanCar.id = some sedanCar :=
  ⟨by decide, by decide, c8_byId_roundtrip kb0 sedanCar (by decide) (by decide)⟩

/-- Claim C9: `process_text` is total at its boundary — whatever the
decision-oracle call does (raises with any message, returns a response with
no output, or returns an output), the result is an ordinary reply string,
never a propagated exception: a raising oracle yields the apology string,
and no input maps to `Except.error`. -/
theorem c9_process_text_never_raises
    (invoke : String → Except String (Option String)) (user_input : String) :
    process_text invoke user_input =
      (match invoke user_input with
       | Except.error e => Except.ok ("Sorry, I encountered an error: " ++ e)
       | Except.ok none =>
         Except.ok "I didn\x27t understand that. Can you please rephrase?"
       | Except.ok (some out) => Except.ok out) := by
  unfold process_text process_input
  cases h : invoke user_input with
  | error e => rfl
  | ok o => cases o <;> rfl

/-- A catalog entry whose availability flag is `false`. -/
def unavailableCar : Car :=
  { id := "suv_002", brand := "Ford", model := "Explorer Pro", year := 2024,
    type := "SUV", price_range := "40,000 - 48,000", features := ["AWD"],
    availability := false, test_drive_duration_minutes := none }

/-- A knowledge base whose only vehicle is unavailable. -/
def kbUnavail : KnowledgeBase := { inventory := [unavailableCar], bookings := [] }

/-- Booking the unavailable vehicle on an in-window date. -/
def c10Run : KnowledgeBase × BookResult :=
  DealershipTools.book_test_drive kbUnavail today0 300
    "Cara" "555-0102" "suv_002" "2024-01-20" "10:00"

/-- Claim C10: `book_test_drive` checks only that the vehicle exists and
that the date is in the window — never the availability flag — so booking a
vehicle whose availability flag is `false` succeeds and stores a confirmed
booking. -/
theorem c10_books_unavailable_vehicle :
    unavailableCar.availability = false ∧
    c10Run.2.isBooked = true ∧
    c10Run.1.bookings.length = 1 ∧
    (c10Run.1.bookings.all fun b =>
      b.booking_status == "confirmed" && b.car_id == "suv_002") = true := by
  decide

end AutoDealership
